import Mathlib

/-!
# Verification of the gtd-agent chat bot command-processing logic

Shallow embedding of the Go sources of `AgentGTD/gtd-agent`:

* `src/chat/chat.go` — text-only variant (`add`, `list`, `done`); embedded in
  namespace `ChatGo`.
* `src/unnamed/part_000`, first file — card-UI variant (card responses, button
  actions `markDone` / `deleteTask` / `editTask` / `list`); embedded in
  namespace `CardVariant`.
* `src/unnamed/part_000`, second file — text variant with `edit` and `test`
  commands; embedded in namespace `TextVariant`.

The SQL table `tasks(id, content, done, user_id)` is modelled as a list of
rows plus the SERIAL sequence counter (`DB`).  Each `sqldb` call can fail; a
request-level parameter `dbErr : Option String` injects such a failure
(`some e` makes every storage call of the request fail with error `e`), so
that propagation versus local handling of storage errors is visible in the
embedding.  Machine integers: Go `int` is 64-bit here, and `strconv.Atoi`
is modelled with its ±2^63 range behaviour.
-/

set_option maxRecDepth 4000

namespace GTD

/-- One row of the `tasks` table: `id SERIAL`, `content TEXT`,
`done BOOLEAN DEFAULT FALSE`, `user_id TEXT`. -/
structure Task where
  id : Int
  content : String
  done : Bool
  user_id : String
deriving DecidableEq, Repr

/-- The relational store: the rows of `tasks` plus the SERIAL sequence that
assigns the next id. -/
structure DB where
  tasks : List Task
  nextId : Int
deriving DecidableEq, Repr

/- ## String primitives (Go `regexp`, `strings`, `strconv` semantics) -/

/-- RE2 character class `\s` = `[\t\n\f\r ]` (Go `regexp`). -/
def isGoSpace (c : Char) : Bool :=
  c == ' ' || c == '\t' || c == '\n' || c == '\x0c' || c == '\r'

/-- RE2 character class `\d` = `[0-9]`. -/
def isDigit (c : Char) : Bool :=
  '0' ≤ c && c ≤ '9'

/-- `unicode.IsSpace` (Go), as used by `strings.TrimSpace`: ASCII whitespace
plus the Unicode White_Space code points. -/
def goIsSpace (c : Char) : Bool :=
  c == ' ' || c == '\t' || c == '\n' || c == '\x0b' || c == '\x0c' || c == '\r' ||
  c == '\x85' || c == '\xa0' || c == '\u1680' ||
  ('\u2000' ≤ c && c ≤ '\u200a') ||
  c == '\u2028' || c == '\u2029' || c == '\u202f' || c == '\u205f' || c == '\u3000'

/-- Go `strings.TrimSpace`: remove leading and trailing Unicode whitespace. -/
def goTrimSpace (s : String) : String :=
  String.mk (((s.data.dropWhile goIsSpace).reverse.dropWhile goIsSpace).reverse)

/-- `l` starts with the characters `p`. -/
def listStartsWith : List Char → List Char → Bool
  | _, [] => true
  | [], _ :: _ => false
  | c :: cs, p :: ps => c == p && listStartsWith cs ps

/-- Numeric value of a digit character. -/
def charDigit (c : Char) : Nat :=
  c.toNat - '0'.toNat

/-- Numeric value of a digit string (base 10). -/
def digitsToNat (s : String) : Nat :=
  s.data.foldl (fun a c => a * 10 + charDigit c) 0

/-- Go `strconv.Atoi` on a 64-bit platform: returns `(value, errored)`.
Syntax errors yield `(0, true)`; out-of-range values are clamped to
`±(2^63 - 1) / -2^63` and flagged (`strconv.ErrRange`).  The Go callers
either branch on the error or discard it and use the value. -/
def goAtoi (s : String) : Int × Bool :=
  match s.data with
  | [] => (0, true)
  | c :: cs =>
    let signDigits : Bool × List Char :=
      if c == '-' then (true, cs) else if c == '+' then (false, cs) else (false, c :: cs)
    let ds := signDigits.2
    if ds.isEmpty then (0, true)
    else if ds.all isDigit then
      let n : Nat := ds.foldl (fun a d => a * 10 + charDigit d) 0
      if signDigits.1 then
        if n ≤ 2 ^ 63 then (-(n : Int), false) else (-(2 ^ 63 : Int), true)
      else
        if n ≤ 2 ^ 63 - 1 then ((n : Int), false) else ((2 ^ 63 - 1 : Int), true)
    else (0, true)

/- ## The three command regexes

`^add\s+(.+)$`, `^done\s+(\d+)$`, `^edit\s+(\d+)\s+(.+)$` with RE2
semantics: `^`/`$` anchor at start/end of text, `.` matches anything but
`'\n'`, leftmost-first (greedy with backtracking) submatch extraction.
`^list$` and `^test$` are plain string equality. -/

/-- Go `regexp` `^add\s+(.+)$`: returns the capture of group 1 when the text
matches.  Greedy `\s+` takes the whole whitespace run; when nothing follows
it, backtracking hands its last character to `(.+)` provided that character
is not `'\n'`. -/
def matchAdd (text : String) : Option String :=
  let l := text.data
  if listStartsWith l ['a', 'd', 'd'] then
    let t := l.drop 3
    let w := t.takeWhile isGoSpace
    let r := t.dropWhile isGoSpace
    if w.isEmpty then none
    else if r.isEmpty then
      match w.getLast? with
      | some c => if c == '\n' then none else some (String.mk [c])
      | none => none
    else if r.contains '\n' then none
    else some (String.mk r)
  else none

/-- Go `regexp` `^done\s+(\d+)$`: capture of group 1 (the digit run). -/
def matchDone (text : String) : Option String :=
  let l := text.data
  if listStartsWith l ['d', 'o', 'n', 'e'] then
    let t := l.drop 4
    let w := t.takeWhile isGoSpace
    let r := t.dropWhile isGoSpace
    if w.isEmpty || r.isEmpty then none
    else if r.all isDigit then some (String.mk r)
    else none
  else none

/-- Go `regexp` `^edit\s+(\d+)\s+(.+)$`: captures of groups 1 and 2. -/
def matchEdit (text : String) : Option (String × String) :=
  let l := text.data
  if listStartsWith l ['e', 'd', 'i', 't'] then
    let t := l.drop 4
    let w1 := t.takeWhile isGoSpace
    let r1 := t.dropWhile isGoSpace
    if w1.isEmpty then none
    else
      let d := r1.takeWhile isDigit
      let r2 := r1.dropWhile isDigit
      if d.isEmpty then none
      else
        let w2 := r2.takeWhile isGoSpace
        let r3 := r2.dropWhile isGoSpace
        if w2.isEmpty then none
        else if r3.isEmpty then
          match w2.getLast? with
          | some c => if c == '\n' then none else some (String.mk d, String.mk [c])
          | none => none
        else if r3.contains '\n' then none
        else some (String.mk d, String.mk r3)
  else none

example : matchAdd "add Buy milk" = some "Buy milk" := by decide
example : matchAdd "list" = none := by decide
example : matchAdd "addx y" = none := by decide
example : matchDone "done 12" = some "12" := by decide
example : matchDone "done 12x" = none := by decide
example : matchEdit "edit 3 Buy oat milk" = some ("3", "Buy oat milk") := by decide
example : matchEdit "edit 3" = none := by decide
example : goAtoi "12" = (12, false) := by decide
example : goAtoi "abc" = (0, true) := by decide
example : goAtoi "" = (0, true) := by decide
example : goTrimSpace "  hi \n" = "hi" := by decide

/- ## SQL statement semantics

Every statement of the Go sources filters with `WHERE id = $1 AND user_id = $2`
(or `WHERE user_id = $1` for the list query).  `exec*` return the new row list
together with `RowsAffected`; `query*` read without mutating. -/

/-- The `WHERE id = $1 AND user_id = $2` filter shared by all statements. -/
def rowMatches (taskID : Int) (userID : String) (t : Task) : Bool :=
  t.id == taskID && t.user_id == userID

/-- `UPDATE tasks SET done = true WHERE id = $1 AND user_id = $2`:
new rows and `RowsAffected`. -/
def execSetDone (taskID : Int) (userID : String) (s : List Task) : List Task × Nat :=
  (s.map (fun t => if rowMatches taskID userID t then { t with done := true } else t),
   (s.filter (rowMatches taskID userID)).length)

/-- `DELETE FROM tasks WHERE id = $1 AND user_id = $2`:
new rows and `RowsAffected`. -/
def execDelete (taskID : Int) (userID : String) (s : List Task) : List Task × Nat :=
  (s.filter (fun t => !(rowMatches taskID userID t)),
   (s.filter (rowMatches taskID userID)).length)

/-- `UPDATE tasks SET content = $1 WHERE id = $2 AND user_id = $3`:
new rows and `RowsAffected`. -/
def execSetContent (newContent : String) (taskID : Int) (userID : String)
    (s : List Task) : List Task × Nat :=
  (s.map (fun t => if rowMatches taskID userID t then { t with content := newContent } else t),
   (s.filter (rowMatches taskID userID)).length)

/-- `SELECT content FROM tasks WHERE id = $1 AND user_id = $2` via `QueryRow`:
the first matching row's content, `none` when there is no row
(`sql.ErrNoRows`). -/
def querySelectContent (taskID : Int) (userID : String) (s : List Task) : Option String :=
  (s.find? (rowMatches taskID userID)).map (fun t => t.content)

/-- Insert a task in ascending-id position. -/
def insertById (t : Task) : List Task → List Task
  | [] => [t]
  | u :: us => if t.id ≤ u.id then t :: u :: us else u :: insertById t us

/-- Sort rows ascending by id (`ORDER BY id`). -/
def sortById : List Task → List Task
  | [] => []
  | t :: ts => insertById t (sortById ts)

/-- `SELECT id, content, done FROM tasks WHERE user_id = $1 ORDER BY id`. -/
def queryUserTasks (userID : String) (s : List Task) : List Task :=
  sortById (s.filter (fun t => t.user_id == userID))

/- ## Owner resolution and card-action parameters -/

/-- Owner resolution, as written identically in `HandleChat` and
`handleCardAction`: prefer the sender email, fall back to the sender name,
fall back to `"default"`. -/
def resolveUserID (email name : String) : String :=
  if email ≠ "" then email
  else if name ≠ "" then name
  else "default"

/-- Lookup in a `map[string]string` built by inserting the pairs in order
(later bindings overwrite earlier ones); a missing key yields the zero
value `""`, as in Go. -/
def mapGet (m : List (String × String)) (k : String) : String :=
  (m.foldl (fun acc p => if p.1 == k then some p.2 else acc) none).getD ""

/- ## Request and response shapes (Google Chat webhook JSON) -/

/-- `CardAction`: action carried by a button / text-input change. -/
structure CardAction where
  actionMethodName : String
  parameters : List (String × String)
deriving DecidableEq, Repr

/-- `OnClick` wrapper. -/
structure OnClick where
  action : CardAction
deriving DecidableEq, Repr

/-- `TextButton`. -/
structure TextButton where
  text : String
  onClick : OnClick
deriving DecidableEq, Repr

/-- `Button` (the Go struct holds a possibly-nil `*TextButton`). -/
structure Button where
  textButton : Option TextButton
deriving DecidableEq, Repr

/-- `ButtonList` widget. -/
structure ButtonList where
  buttons : List Button
deriving DecidableEq, Repr

/-- `TextParagraph` widget. -/
structure TextParagraph where
  text : String
deriving DecidableEq, Repr

/-- `TextInput` widget (card variant only). -/
structure TextInput where
  name : String
  label : String
  type : String
  value : String
  onChangeAction : OnClick
deriving DecidableEq, Repr

/-- `Widget`: exactly one of the pointers is set in the sources; `divider`
models presence of the empty `*Divider`. -/
structure Widget where
  textParagraph : Option TextParagraph
  buttonList : Option ButtonList
  divider : Bool
  textInput : Option TextInput
deriving DecidableEq, Repr

/-- `CardSection`. -/
structure CardSection where
  widgets : List Widget
deriving DecidableEq, Repr

/-- `CardHeader` (`subtitle` is `""` when omitted). -/
structure CardHeader where
  title : String
  subtitle : String
deriving DecidableEq, Repr

/-- `Card`. -/
structure Card where
  header : Option CardHeader
  sections : List CardSection
deriving DecidableEq, Repr

/-- `ChatResponse`: Go zero values `""` / `nil` stand for the omitted field. -/
structure ChatResponse where
  text : String
  cards : List Card
deriving DecidableEq, Repr

/-- `message.sender`. -/
structure Sender where
  name : String
  email : String
deriving DecidableEq, Repr

/-- `message`. -/
structure Message where
  text : String
  sender : Sender
deriving DecidableEq, Repr

/-- One entry of `action.parameters`. -/
structure ActionParam where
  key : String
  value : String
deriving DecidableEq, Repr

/-- `action` of the webhook request (button click). -/
structure ReqAction where
  actionMethodName : String
  parameters : List ActionParam
deriving DecidableEq, Repr

/-- `ChatRequest` (the `chat.go` variant has no `action` field; it is `none`
for its requests). -/
structure ChatRequest where
  message : Message
  action : Option ReqAction
deriving DecidableEq, Repr

/-- The classified meaning of a text command: one constructor per branch of
the `HandleChat` switch of the text variant, in source order. -/
inductive Intent where
  | add (content : String)
  | list
  | done (id : Int)
  | edit (id : Int) (content : String)
  | test
  | help
deriving DecidableEq, Repr

/-- The not-found reply shared by `markTaskDone`, `deleteTask`, `editTask`
and `showEditForm`. -/
def notFoundMsg (taskID : Int) : String :=
  "❌ Task with ID " ++ toString taskID ++ " not found or doesn't belong to you"

/-! ## Text variant (`src/unnamed/part_000`, second file)

Text replies, commands `add`, `list`, `done`, `edit`, `test`. -/

namespace TextVariant

/-- The classification performed by the `switch` of `HandleChat`:
first-match-wins over `addCmd`, `listCmd`, `doneCmd`, `editCmd`, `testCmd`,
with the help fallback.  Capture post-processing (`strings.TrimSpace` on
content, `strconv.Atoi` with the error discarded on ids) happens in the
branches and is part of the extraction. -/
def parseCommand (text : String) : Intent :=
  match matchAdd text with
  | some cap => .add (goTrimSpace cap)
  | none =>
    if text = "list" then .list
    else
      match matchDone text with
      | some ds => .done (goAtoi ds).1
      | none =>
        match matchEdit text with
        | some (ds, cap) => .edit (goAtoi ds).1 (goTrimSpace cap)
        | none => if text = "test" then .test else .help

/-- The static usage message of the `default` branch. -/
def usageText : String :=
  "Available commands:\n• add <task> - Add a new task\n• list - List all tasks\n• done <id> - Mark task as done\n• edit <id> <new content> - Edit a task\n• test - Test bot functionality"

/-- The static reply of the `test` branch. -/
def testText : String :=
  "🧪 Test command working! The bot is responding correctly."

/-- `addTask` (text variant): INSERT RETURNING id, then a text reply. -/
def addTask (dbErr : Option String) (content userID : String) (db : DB) :
    Except String (ChatResponse × DB) :=
  match dbErr with
  | some e => .error e
  | none =>
    let id := db.nextId
    .ok (⟨"✅ Task added with ID: " ++ toString id ++ "\nContent: " ++ content, []⟩,
         ⟨db.tasks ++ [⟨id, content, false, userID⟩], db.nextId + 1⟩)

/-- `listTasks` (text variant): numbered lines with a status glyph. -/
def listTasks (dbErr : Option String) (userID : String) (db : DB) :
    Except String (ChatResponse × DB) :=
  match dbErr with
  | some e => .error e
  | none =>
    let rows := queryUserTasks userID db.tasks
    let lines := rows.map (fun t =>
      toString t.id ++ ". " ++ (if t.done then "✅" else "❌") ++ " " ++ t.content)
    if lines.isEmpty then
      .ok (⟨"📝 No tasks found. Use 'add <task>' to create your first task!", []⟩, db)
    else
      .ok (⟨"📋 Your tasks:\n" ++ String.intercalate "\n" lines, []⟩, db)

/-- Success reply of `markTaskDone` (text variant). -/
def doneMsg (taskID : Int) : String :=
  "✅ Task " ++ toString taskID ++ " marked as done!"

/-- `markTaskDone` (text variant). -/
def markTaskDone (dbErr : Option String) (taskID : Int) (userID : String) (db : DB) :
    Except String (ChatResponse × DB) :=
  match dbErr with
  | some e => .error e
  | none =>
    let r := execSetDone taskID userID db.tasks
    let db' : DB := ⟨r.1, db.nextId⟩
    if r.2 = 0 then .ok (⟨notFoundMsg taskID, []⟩, db')
    else .ok (⟨doneMsg taskID, []⟩, db')

/-- Success reply of `deleteTask` (text variant). -/
def deletedMsg (taskID : Int) : String :=
  "🗑️ Task " ++ toString taskID ++ " deleted!"

/-- `deleteTask` (text variant). -/
def deleteTask (dbErr : Option String) (taskID : Int) (userID : String) (db : DB) :
    Except String (ChatResponse × DB) :=
  match dbErr with
  | some e => .error e
  | none =>
    let r := execDelete taskID userID db.tasks
    let db' : DB := ⟨r.1, db.nextId⟩
    if r.2 = 0 then .ok (⟨notFoundMsg taskID, []⟩, db')
    else .ok (⟨deletedMsg taskID, []⟩, db')

/-- `editTask` (text variant): rejects empty content before the UPDATE. -/
def editTask (dbErr : Option String) (taskID : Int) (newContent userID : String) (db : DB) :
    Except String (ChatResponse × DB) :=
  if newContent = "" then .ok (⟨"❌ Task content cannot be empty", []⟩, db)
  else
    match dbErr with
    | some e => .error e
    | none =>
      let r := execSetContent newContent taskID userID db.tasks
      let db' : DB := ⟨r.1, db.nextId⟩
      if r.2 = 0 then .ok (⟨notFoundMsg taskID, []⟩, db')
      else .ok (⟨"✏️ Task " ++ toString taskID ++ " updated to: " ++ newContent, []⟩, db')

/-- The text-message path of `HandleChat` (requests with `req.Action == nil`):
trim, resolve the owner, classify, dispatch; storage errors of the branches
are wrapped with `fmt.Errorf` and propagated. -/
def handleChat (dbErr : Option String) (msgText senderName senderEmail : String) (db : DB) :
    Except String (ChatResponse × DB) :=
  let text := goTrimSpace msgText
  let userID := resolveUserID senderEmail senderName
  match parseCommand text with
  | .add content =>
    match addTask dbErr content userID db with
    | .error e => .error ("failed to add task: " ++ e)
    | .ok x => .ok x
  | .list =>
    match listTasks dbErr userID db with
    | .error e => .error ("failed to list tasks: " ++ e)
    | .ok x => .ok x
  | .done taskID =>
    match markTaskDone dbErr taskID userID db with
    | .error e => .error ("failed to mark task as done: " ++ e)
    | .ok x => .ok x
  | .edit taskID newContent =>
    match editTask dbErr taskID newContent userID db with
    | .error e => .error ("failed to edit task: " ++ e)
    | .ok x => .ok x
  | .test => .ok (⟨testText, []⟩, db)
  | .help => .ok (⟨usageText, []⟩, db)

end TextVariant

/-! ## Card variant (`src/unnamed/part_000`, first file)

Card responses and the card-action dispatcher. -/

namespace CardVariant

/-- The three action buttons of a task card: `Mark as Done` only when the
task is not yet done, then `Edit` and `Delete` (`createTaskButtons`). -/
def createTaskButtons (taskID : Int) (done : Bool) : List Button :=
  (if !done then
    [⟨some ⟨"Mark as Done", ⟨⟨"markDone", [("taskId", toString taskID)]⟩⟩⟩⟩]
  else []) ++
  [⟨some ⟨"Edit", ⟨⟨"editTask", [("taskId", toString taskID)]⟩⟩⟩⟩,
   ⟨some ⟨"Delete", ⟨⟨"deleteTask", [("taskId", toString taskID)]⟩⟩⟩⟩]

/-- The card built for one task in the loop of `listTasks`. -/
def taskCard (t : Task) : Card :=
  { header := some ⟨(if t.done then "✅" else "❌") ++ " Task #" ++ toString t.id, ""⟩,
    sections := [⟨[
      ⟨some ⟨t.content⟩, none, false, none⟩,
      ⟨none, none, true, none⟩,
      ⟨none, some ⟨createTaskButtons t.id t.done⟩, false, none⟩]⟩] }

/-- `listTasks` (card variant): one card per task of the owner. -/
def listTasks (dbErr : Option String) (userID : String) (db : DB) :
    Except String (ChatResponse × DB) :=
  match dbErr with
  | some e => .error e
  | none =>
    let rows := queryUserTasks userID db.tasks
    if rows.isEmpty then
      .ok (⟨"📝 No tasks found. Use 'add <task>' to create your first task!", []⟩, db)
    else
      .ok (⟨"", rows.map taskCard⟩, db)

/-- `markTaskDone` (card variant): on success it replies with the updated
task list. -/
def markTaskDone (dbErr : Option String) (taskID : Int) (userID : String) (db : DB) :
    Except String (ChatResponse × DB) :=
  match dbErr with
  | some e => .error e
  | none =>
    let r := execSetDone taskID userID db.tasks
    let db' : DB := ⟨r.1, db.nextId⟩
    if r.2 = 0 then .ok (⟨notFoundMsg taskID, []⟩, db')
    else listTasks none userID db'

/-- `deleteTask` (card variant). -/
def deleteTask (dbErr : Option String) (taskID : Int) (userID : String) (db : DB) :
    Except String (ChatResponse × DB) :=
  match dbErr with
  | some e => .error e
  | none =>
    let r := execDelete taskID userID db.tasks
    let db' : DB := ⟨r.1, db.nextId⟩
    if r.2 = 0 then .ok (⟨notFoundMsg taskID, []⟩, db')
    else listTasks none userID db'

/-- `editTask` (card variant): rejects empty content before the UPDATE. -/
def editTask (dbErr : Option String) (taskID : Int) (newContent userID : String) (db : DB) :
    Except String (ChatResponse × DB) :=
  if newContent = "" then .ok (⟨"❌ Task content cannot be empty", []⟩, db)
  else
    match dbErr with
    | some e => .error e
    | none =>
      let r := execSetContent newContent taskID userID db.tasks
      let db' : DB := ⟨r.1, db.nextId⟩
      if r.2 = 0 then .ok (⟨notFoundMsg taskID, []⟩, db')
      else listTasks none userID db'

/-- The edit-form card of `showEditForm`: a `TextInput` prefilled with the
current content, a divider, and `Save` / `Cancel` buttons. -/
def editFormCard (taskID : Int) (content : String) : Card :=
  { header := some ⟨"✏️ Edit Task #" ++ toString taskID, ""⟩,
    sections := [⟨[
      ⟨none, none, false, some
        ⟨"content", "Task content:", "SINGLE_LINE", content,
         ⟨⟨"editTask", [("taskId", toString taskID)]⟩⟩⟩⟩,
      ⟨none, none, true, none⟩,
      ⟨none, some ⟨[
        ⟨some ⟨"Save", ⟨⟨"editTask", [("taskId", toString taskID)]⟩⟩⟩⟩,
        ⟨some ⟨"Cancel", ⟨⟨"list", []⟩⟩⟩⟩]⟩, false, none⟩]⟩] }

/-- `showEditForm`: read the current content (`QueryRow ... Scan`); any scan
error — no matching row or a storage failure — yields the not-found reply,
otherwise the edit-form card.  It never mutates the store. -/
def showEditForm (dbErr : Option String) (taskID : Int) (userID : String) (db : DB) :
    Except String (ChatResponse × DB) :=
  let scanned : Except String String :=
    match dbErr with
    | some e => .error e
    | none =>
      match querySelectContent taskID userID db.tasks with
      | some c => .ok c
      | none => .error "sql: no rows in result set"
  match scanned with
  | .error _ => .ok (⟨notFoundMsg taskID, []⟩, db)
  | .ok content => .ok (⟨"", [editFormCard taskID content]⟩, db)

/-- `handleCardAction`: resolve the owner, fold the parameter list into a
map, then dispatch on `actionMethodName`. -/
def handleCardAction (dbErr : Option String) (req : ChatRequest) (db : DB) :
    Except String (ChatResponse × DB) :=
  match req.action with
  | none => .ok (⟨"❌ Invalid action", []⟩, db)
  | some act =>
    let userID := resolveUserID req.message.sender.email req.message.sender.name
    let params := act.parameters.map (fun p => (p.key, p.value))
    if act.actionMethodName = "markDone" then
      let r := goAtoi (mapGet params "taskId")
      if r.2 then .ok (⟨"❌ Invalid task ID", []⟩, db)
      else markTaskDone dbErr r.1 userID db
    else if act.actionMethodName = "deleteTask" then
      let r := goAtoi (mapGet params "taskId")
      if r.2 then .ok (⟨"❌ Invalid task ID", []⟩, db)
      else deleteTask dbErr r.1 userID db
    else if act.actionMethodName = "editTask" then
      let r := goAtoi (mapGet params "taskId")
      if r.2 then .ok (⟨"❌ Invalid task ID", []⟩, db)
      else
        let newContent := mapGet params "content"
        if newContent ≠ "" then editTask dbErr r.1 newContent userID db
        else showEditForm dbErr r.1 userID db
    else if act.actionMethodName = "list" then listTasks dbErr userID db
    else .ok (⟨"❌ Unknown action", []⟩, db)

end CardVariant

/-! ## `src/chat/chat.go` (text-only, `add` / `list` / `done`)

The store helpers return plain strings; `HandleChat` wraps them into a
`ChatResponse` and propagates storage failures with `fmt.Errorf`. -/

namespace ChatGo

/-- `addTask` (`chat.go`). -/
def addTask (dbErr : Option String) (content userID : String) (db : DB) :
    Except String (String × DB) :=
  match dbErr with
  | some e => .error e
  | none =>
    let id := db.nextId
    .ok ("✅ Task added with ID: " ++ toString id,
         ⟨db.tasks ++ [⟨id, content, false, userID⟩], db.nextId + 1⟩)

/-- `listTasks` (`chat.go`). -/
def listTasks (dbErr : Option String) (userID : String) (db : DB) :
    Except String (String × DB) :=
  match dbErr with
  | some e => .error e
  | none =>
    let rows := queryUserTasks userID db.tasks
    let lines := rows.map (fun t =>
      toString t.id ++ ". " ++ (if t.done then "✅" else "❌") ++ " " ++ t.content)
    if lines.isEmpty then
      .ok ("📝 No tasks found. Use 'add <task>' to create your first task!", db)
    else
      .ok ("📋 Your tasks:\n" ++ String.intercalate "\n" lines, db)

/-- `markTaskDone` (`chat.go`). -/
def markTaskDone (dbErr : Option String) (taskID : Int) (userID : String) (db : DB) :
    Except String (String × DB) :=
  match dbErr with
  | some e => .error e
  | none =>
    let r := execSetDone taskID userID db.tasks
    let db' : DB := ⟨r.1, db.nextId⟩
    if r.2 = 0 then .ok (notFoundMsg taskID, db')
    else .ok (TextVariant.doneMsg taskID, db')

/-- The static usage message of the `default` branch of `chat.go`. -/
def usageText : String :=
  "Available commands:\n• add <task> - Add a new task\n• list - List all tasks\n• done <id> - Mark task as done"

/-- `HandleChat` (`chat.go`): trim, resolve the owner, run the three-pattern
switch; a failing store call is wrapped with `fmt.Errorf` and returned as a
hard failure. -/
def handleChat (dbErr : Option String) (req : ChatRequest) (db : DB) :
    Except String (ChatResponse × DB) :=
  let text := goTrimSpace req.message.text
  let userID := resolveUserID req.message.sender.email req.message.sender.name
  match matchAdd text with
  | some cap =>
    match addTask dbErr (goTrimSpace cap) userID db with
    | .error e => .error ("failed to add task: " ++ e)
    | .ok (resp, db') => .ok (⟨resp, []⟩, db')
  | none =>
    if text = "list" then
      match listTasks dbErr userID db with
      | .error e => .error ("failed to list tasks: " ++ e)
      | .ok (resp, db') => .ok (⟨resp, []⟩, db')
    else
      match matchDone text with
      | some ds =>
        match markTaskDone dbErr (goAtoi ds).1 userID db with
        | .error e => .error ("failed to mark task as done: " ++ e)
        | .ok (resp, db') => .ok (⟨resp, []⟩, db')
      | none => .ok (⟨usageText, []⟩, db)

end ChatGo

/-! ## Helper lemmas -/

/-- A conditional row update leaves the list unchanged when it fixes every
matching row (in particular when no row matches). -/
theorem map_update_eq_self {p : Task → Bool} {f : Task → Task} {s : List Task}
    (h : ∀ t ∈ s, p t = true → f t = t) :
    s.map (fun t => if p t then f t else t) = s := by
  induction s with
  | nil => rfl
  | cons a as ih =>
    have ha : (if p a then f a else a) = a := by
      by_cases hp : p a = true
      · rw [if_pos hp]; exact h a (by simp) hp
      · simp only [Bool.not_eq_true] at hp; rw [hp]; simp
    simp [ha, ih fun t ht hp => h t (by simp [ht]) hp]

/-- `RowsAffected = 0` means no row satisfied the `WHERE` clause. -/
theorem rowMatches_false_of_count_zero {taskID : Int} {userID : String} {s : List Task}
    (h : (s.filter (rowMatches taskID userID)).length = 0) :
    ∀ t ∈ s, rowMatches taskID userID t = false := by
  rw [List.length_eq_zero, List.filter_eq_nil_iff] at h
  intro t ht
  simpa using h t ht

/-- `execSetDone` with no matching row: unchanged rows, zero affected. -/
theorem execSetDone_of_nomatch {taskID : Int} {userID : String} {s : List Task}
    (h : ∀ t ∈ s, rowMatches taskID userID t = false) :
    execSetDone taskID userID s = (s, 0) := by
  unfold execSetDone
  rw [map_update_eq_self fun t ht hp => absurd hp (by simp [h t ht]),
    List.filter_eq_nil_iff.mpr (by intro t ht; simp [h t ht])]
  rfl

/-- `execDelete` with no matching row: unchanged rows, zero affected. -/
theorem execDelete_of_nomatch {taskID : Int} {userID : String} {s : List Task}
    (h : ∀ t ∈ s, rowMatches taskID userID t = false) :
    execDelete taskID userID s = (s, 0) := by
  unfold execDelete
  have h1 : s.filter (fun t => !(rowMatches taskID userID t)) = s :=
    List.filter_eq_self.mpr (by intro t ht; simp [h t ht])
  have h2 : s.filter (rowMatches taskID userID) = [] :=
    List.filter_eq_nil_iff.mpr (by intro t ht; simp [h t ht])
  rw [h1, h2]
  rfl

/-- `execSetContent` with no matching row: unchanged rows, zero affected. -/
theorem execSetContent_of_nomatch {newContent : String} {taskID : Int} {userID : String}
    {s : List Task} (h : ∀ t ∈ s, rowMatches taskID userID t = false) :
    execSetContent newContent taskID userID s = (s, 0) := by
  unfold execSetContent
  rw [map_update_eq_self fun t ht hp => absurd hp (by simp [h t ht]),
    List.filter_eq_nil_iff.mpr (by intro t ht; simp [h t ht])]
  rfl

/-- Membership is preserved by the ordered insertion. -/
theorem mem_insertById {t u : Task} {l : List Task} :
    u ∈ insertById t l ↔ u = t ∨ u ∈ l := by
  induction l with
  | nil => simp [insertById]
  | cons a as ih =>
    rw [insertById]
    split
    · simp [List.mem_cons]
    · rw [List.mem_cons, ih, List.mem_cons]
      tauto

/-- Membership is preserved by `ORDER BY id`. -/
theorem mem_sortById {u : Task} {l : List Task} : u ∈ sortById l ↔ u ∈ l := by
  induction l with
  | nil => simp [sortById]
  | cons a as ih =>
    rw [sortById, mem_insertById, ih, List.mem_cons]

/-- Appending on the right keeps the first character. -/
theorem data_head_append {p : String} {c : Char} (s : String)
    (h : p.data.head? = some c) : (p ++ s).data.head? = some c := by
  rw [String.data_append]
  cases hp : p.data with
  | nil => rw [hp] at h; simp at h
  | cons a l => rw [hp] at h; simpa using h

/-- Two strings with distinct first characters are distinct. -/
theorem string_ne_of_head_ne {s₁ s₂ : String} {c₁ c₂ : Char} (hne : c₁ ≠ c₂)
    (h₁ : s₁.data.head? = some c₁) (h₂ : s₂.data.head? = some c₂) : s₁ ≠ s₂ := by
  intro h
  rw [h, h₂] at h₁
  exact hne (by simpa using h₁.symm)

/-- A successful `^done\s+(\d+)$` match captures a non-empty digit string. -/
theorem matchDone_digits {text ds : String} (h : matchDone text = some ds) :
    ds.data ≠ [] ∧ (∀ c ∈ ds.data, isDigit c = true) := by
  simp only [matchDone] at h
  split at h
  case isTrue =>
    split at h
    case isTrue => simp at h
    case isFalse hguard =>
      split at h
      case isTrue hdig =>
        rw [Option.some.injEq] at h
        subst h
        refine ⟨?_, ?_⟩
        · intro hnil
          apply hguard
          rw [Bool.or_eq_true]
          right
          simpa using hnil
        · intro c hc
          exact List.all_eq_true.mp hdig c hc
      case isFalse => simp at h
  case isFalse => simp at h

/-- A successful `^edit\s+(\d+)\s+(.+)$` match captures a non-empty digit
string in group 1. -/
theorem matchEdit_digits {text ds cap : String}
    (h : matchEdit text = some (ds, cap)) :
    ds.data ≠ [] ∧ (∀ c ∈ ds.data, isDigit c = true) := by
  simp only [matchEdit] at h
  split at h
  case isFalse => simp at h
  case isTrue =>
    split at h
    case isTrue => simp at h
    case isFalse =>
      split at h
      case isTrue => simp at h
      case isFalse hd =>
        have hds : ∀ r3 : List Char,
            ds = String.mk ((text.data.drop 4).dropWhile isGoSpace |>.takeWhile isDigit) →
            ds.data ≠ [] ∧ (∀ c ∈ ds.data, isDigit c = true) := by
          intro _ hds
          subst hds
          constructor
          · intro hnil
            apply hd
            simpa using hnil
          · intro c hc
            exact List.mem_takeWhile_imp (by simpa using hc)
        split at h
        case isTrue => simp at h
        case isFalse =>
          split at h
          case isTrue =>
            split at h
            case h_1 =>
              split at h
              case isTrue => simp at h
              case isFalse =>
                rw [Option.some.injEq, Prod.mk.injEq] at h
                exact hds [] h.1.symm
            case h_2 => simp at h
          case isFalse =>
            split at h
            case isTrue => simp at h
            case isFalse =>
              rw [Option.some.injEq, Prod.mk.injEq] at h
              exact hds [] h.1.symm

/-- A digit character is neither the minus nor the plus sign. -/
theorem isDigit_not_sign {c : Char} (h : isDigit c = true) :
    (c == '-') = false ∧ (c == '+') = false := by
  constructor <;>
    (rw [Bool.eq_false_iff]
     intro hb
     rw [beq_iff_eq] at hb
     subst hb
     exact absurd h (by decide))

/-- `strconv.Atoi` on a non-empty all-digit string whose value fits in a
64-bit int succeeds and returns exactly that value. -/
theorem goAtoi_digits {ds : String} (hne : ds.data ≠ [])
    (hdig : ∀ c ∈ ds.data, isDigit c = true)
    (hbound : digitsToNat ds ≤ 2 ^ 63 - 1) :
    goAtoi ds = ((digitsToNat ds : Int), false) := by
  cases hd : ds.data with
  | nil => exact absurd hd hne
  | cons c cs =>
    have hc : isDigit c = true := hdig c (by rw [hd]; exact List.mem_cons_self c cs)
    obtain ⟨hm, hp⟩ := isDigit_not_sign hc
    have hall : (c :: cs).all isDigit = true :=
      List.all_eq_true.mpr fun x hx => hdig x (by rw [hd]; exact hx)
    have hbound' : ((c :: cs).foldl (fun a d => a * 10 + charDigit d) 0) ≤ 2 ^ 63 - 1 := by
      rw [digitsToNat, hd] at hbound
      exact hbound
    have hbound2 : List.foldl (fun a d => a * 10 + charDigit d) (charDigit c) cs
        ≤ 9223372036854775807 := by simpa using hbound'
    simp [goAtoi, digitsToNat, hd, hm, hp, hall, hbound2]

/-! ## Claims -/

/-- C1: `SetDone`, `Delete` and `Edit` (the latter with a proper, non-empty
new content) invoked with owner `B` on a task id whose stored rows all
belong to a different owner `A` return the not-found reply and leave the
store — in particular that task's row — unchanged, in every variant.
Moreover, no store operation reads or mutates a task whose owner differs
from the presented owner: the owner-scoped updates fix foreign rows, the
delete keeps them, and the reads only return rows of the presented owner. -/
theorem claim_c1 (db : DB) (taskID : Int) (A B : String)
    (hAB : A ≠ B)
    (howner : ∀ t ∈ db.tasks, t.id = taskID → t.user_id = A) :
    CardVariant.markTaskDone none taskID B db = .ok (⟨notFoundMsg taskID, []⟩, db) ∧
    CardVariant.deleteTask none taskID B db = .ok (⟨notFoundMsg taskID, []⟩, db) ∧
    (∀ c, c ≠ "" → CardVariant.editTask none taskID c B db
      = .ok (⟨notFoundMsg taskID, []⟩, db)) ∧
    TextVariant.markTaskDone none taskID B db = .ok (⟨notFoundMsg taskID, []⟩, db) ∧
    TextVariant.deleteTask none taskID B db = .ok (⟨notFoundMsg taskID, []⟩, db) ∧
    (∀ c, c ≠ "" → TextVariant.editTask none taskID c B db
      = .ok (⟨notFoundMsg taskID, []⟩, db)) ∧
    ChatGo.markTaskDone none taskID B db = .ok (notFoundMsg taskID, db) ∧
    querySelectContent taskID B db.tasks = none ∧
    (∀ (id : Int) (u : String) (t : Task), t ∈ db.tasks → t.user_id ≠ u →
      t ∈ (execSetDone id u db.tasks).1 ∧ t ∈ (execDelete id u db.tasks).1 ∧
      ∀ c, t ∈ (execSetContent c id u db.tasks).1) ∧
    (∀ (id : Int) (u : String) (c : String), querySelectContent id u db.tasks = some c →
      ∃ t ∈ db.tasks, t.user_id = u ∧ t.id = id ∧ t.content = c) ∧
    (∀ (u : String) (t : Task), t ∈ queryUserTasks u db.tasks → t.user_id = u) := by
  have hnm : ∀ t ∈ db.tasks, rowMatches taskID B t = false := by
    intro t ht
    unfold rowMatches
    by_cases hid : t.id = taskID
    · have hA := howner t ht hid
      have : (t.user_id == B) = false := by
        rw [beq_eq_false_iff_ne, hA]
        exact hAB
      simp [this]
    · have : (t.id == taskID) = false := beq_eq_false_iff_ne.mpr hid
      simp [this]
  refine ⟨?_, ?_, ?_, ?_, ?_, ?_, ?_, ?_, ?_, ?_, ?_⟩
  · simp [CardVariant.markTaskDone, execSetDone_of_nomatch hnm]
  · simp [CardVariant.deleteTask, execDelete_of_nomatch hnm]
  · intro c hc
    simp [CardVariant.editTask, hc, execSetContent_of_nomatch hnm]
  · simp [TextVariant.markTaskDone, execSetDone_of_nomatch hnm]
  · simp [TextVariant.deleteTask, execDelete_of_nomatch hnm]
  · intro c hc
    simp [TextVariant.editTask, hc, execSetContent_of_nomatch hnm]
  · simp [ChatGo.markTaskDone, execSetDone_of_nomatch hnm]
  · rw [querySelectContent, List.find?_eq_none.mpr (by intro t ht; simp [hnm t ht])]
    rfl
  · intro id u t ht hu
    have hfix : rowMatches id u t = false := by
      unfold rowMatches
      have : (t.user_id == u) = false := beq_eq_false_iff_ne.mpr hu
      simp [this]
    refine ⟨?_, ?_, ?_⟩
    · exact List.mem_map.mpr ⟨t, ht, by simp [hfix]⟩
    · exact List.mem_filter.mpr ⟨ht, by simp [hfix]⟩
    · intro c
      exact List.mem_map.mpr ⟨t, ht, by simp [hfix]⟩
  · intro id u c hq
    unfold querySelectContent at hq
    cases hf : db.tasks.find? (rowMatches id u) with
    | none => rw [hf] at hq; simp at hq
    | some t =>
      rw [hf] at hq
      have hmem := List.mem_of_find?_eq_some hf
      have hp : rowMatches id u t = true := List.find?_some hf
      unfold rowMatches at hp
      simp only [Bool.and_eq_true, beq_iff_eq] at hp
      exact ⟨t, hmem, hp.2, hp.1, by simpa using hq⟩
  · intro u t ht
    have := mem_sortById.mp ht
    have hf := List.mem_filter.mp this
    simpa using hf.2

/-- Witness for C1: owner `bob` touching `alice`'s task 1. -/
theorem claim_c1_witness :
    CardVariant.markTaskDone none 1 "bob" ⟨[⟨1, "milk", false, "alice"⟩], 2⟩
      = .ok (⟨notFoundMsg 1, []⟩, ⟨[⟨1, "milk", false, "alice"⟩], 2⟩) ∧
    TextVariant.deleteTask none 1 "bob" ⟨[⟨1, "milk", false, "alice"⟩], 2⟩
      = .ok (⟨notFoundMsg 1, []⟩, ⟨[⟨1, "milk", false, "alice"⟩], 2⟩) ∧
    TextVariant.editTask none 1 "new" "bob" ⟨[⟨1, "milk", false, "alice"⟩], 2⟩
      = .ok (⟨notFoundMsg 1, []⟩, ⟨[⟨1, "milk", false, "alice"⟩], 2⟩) := by
  have h := claim_c1 ⟨[⟨1, "milk", false, "alice"⟩], 2⟩ 1 "alice" "bob"
    (by decide) (by decide)
  exact ⟨h.1, h.2.2.2.2.1, h.2.2.2.2.2.1 "new" (by decide)⟩

/-- C2: for every task id and owner, `editTask` invoked with empty new
content returns the rejection reply and leaves the store completely
unchanged, in both the card variant and the text variant.  The statement
holds for every `dbErr`, including an injected storage failure, which shows
the empty-content check happens before any storage access. -/
theorem claim_c2 (dbErr : Option String) (taskID : Int) (userID : String) (db : DB) :
    CardVariant.editTask dbErr taskID "" userID db
      = .ok (⟨"❌ Task content cannot be empty", []⟩, db) ∧
    TextVariant.editTask dbErr taskID "" userID db
      = .ok (⟨"❌ Task content cannot be empty", []⟩, db) := by
  constructor <;> rfl

/-- C4: owner resolution is a pure total precedence function: the sender
email when non-empty, else the sender name when non-empty, else the fixed
default `"default"`; the result is always a (non-empty) value. -/
theorem claim_c4 (email name : String) :
    (email ≠ "" → resolveUserID email name = email) ∧
    (email = "" → name ≠ "" → resolveUserID email name = name) ∧
    (email = "" → name = "" → resolveUserID email name = "default") ∧
    resolveUserID email name ≠ "" := by
  unfold resolveUserID
  refine ⟨fun h1 => by simp [h1], fun h1 h2 => by simp [h1, h2],
    fun h1 h2 => by simp [h1, h2], ?_⟩
  split_ifs with h1 h2
  · exact h1
  · exact h2
  · decide

/-- Witness for C4 at concrete senders. -/
theorem claim_c4_witness :
    resolveUserID "a@x.io" "Bob" = "a@x.io" ∧ resolveUserID "" "Bob" = "Bob" ∧
    resolveUserID "" "" = "default" :=
  ⟨(claim_c4 "a@x.io" "Bob").1 (by decide), (claim_c4 "" "Bob").2.1 rfl (by decide),
   (claim_c4 "" "").2.2.1 rfl rfl⟩

/-- C5: a card action among `markDone`, `deleteTask` and `editTask` whose
`taskId` parameter fails integer parsing returns the invalid-task-id reply
and performs no store operation — the store is returned unchanged, for every
`dbErr`, so no storage call is even issued. -/
theorem claim_c5 (dbErr : Option String) (req : ChatRequest) (act : ReqAction) (db : DB)
    (hact : req.action = some act)
    (hm : act.actionMethodName = "markDone" ∨ act.actionMethodName = "deleteTask" ∨
      act.actionMethodName = "editTask")
    (herr : (goAtoi (mapGet (act.parameters.map fun p => (p.key, p.value)) "taskId")).2
      = true) :
    CardVariant.handleCardAction dbErr req db = .ok (⟨"❌ Invalid task ID", []⟩, db) := by
  unfold CardVariant.handleCardAction
  rw [hact]
  rcases hm with h | h | h <;> simp [h, herr]

/-- C6: an `editTask` card action with a valid `taskId` dispatches to the
`editTask` store operation when the `content` parameter is present and
non-empty, and to `showEditForm` when it is absent or empty; `showEditForm`
never mutates the store, and — when the row exists — replies with the edit
form whose `TextInput` named `content` is prefilled with the stored content
read by the `SELECT content` query. -/
theorem claim_c6 (dbErr : Option String) (req : ChatRequest) (act : ReqAction) (db : DB)
    (tid : Int)
    (hact : req.action = some act) (hm : act.actionMethodName = "editTask")
    (hid : goAtoi (mapGet (act.parameters.map fun p => (p.key, p.value)) "taskId")
      = (tid, false)) :
    (mapGet (act.parameters.map fun p => (p.key, p.value)) "content" ≠ "" →
      CardVariant.handleCardAction dbErr req db =
        CardVariant.editTask dbErr tid
          (mapGet (act.parameters.map fun p => (p.key, p.value)) "content")
          (resolveUserID req.message.sender.email req.message.sender.name) db) ∧
    (mapGet (act.parameters.map fun p => (p.key, p.value)) "content" = "" →
      CardVariant.handleCardAction dbErr req db =
        CardVariant.showEditForm dbErr tid
          (resolveUserID req.message.sender.email req.message.sender.name) db) ∧
    (∀ (userID : String) (resp : ChatResponse) (db' : DB),
      CardVariant.showEditForm dbErr tid userID db = .ok (resp, db') → db' = db) ∧
    (∀ (userID content : String), dbErr = none →
      querySelectContent tid userID db.tasks = some content →
      CardVariant.showEditForm dbErr tid userID db
        = .ok (⟨"", [CardVariant.editFormCard tid content]⟩, db)) ∧
    (∀ content : String, ∃ sec : CardSection,
      (CardVariant.editFormCard tid content).sections = [sec] ∧
      ∃ w ∈ sec.widgets, w.textInput = some ⟨"content", "Task content:", "SINGLE_LINE",
        content, ⟨⟨"editTask", [("taskId", toString tid)]⟩⟩⟩) := by
  refine ⟨?_, ?_, ?_, ?_, ?_⟩
  · intro hc
    unfold CardVariant.handleCardAction
    rw [hact]
    simp [hm, hid, hc]
  · intro hc
    unfold CardVariant.handleCardAction
    rw [hact]
    simp [hm, hid, hc]
  · intro userID resp db' h
    unfold CardVariant.showEditForm at h
    cases dbErr with
    | some e => simp at h; exact h.2.symm
    | none =>
      cases hq : querySelectContent tid userID db.tasks <;> simp [hq] at h <;>
        exact h.2.symm
  · intro userID content hnone hq
    subst hnone
    simp [CardVariant.showEditForm, hq]
  · intro content
    refine ⟨_, rfl, ?_⟩
    refine ⟨⟨none, none, false, some ⟨"content", "Task content:", "SINGLE_LINE",
      content, ⟨⟨"editTask", [("taskId", toString tid)]⟩⟩⟩⟩, ?_, rfl⟩
    simp [CardVariant.editFormCard]

/-- Witness for C6: both dispatch directions at a concrete request. -/
theorem claim_c6_witness :
    CardVariant.handleCardAction none
      ⟨⟨"", ⟨"Bob", "b@x.io"⟩⟩, some ⟨"editTask", [⟨"taskId", "7"⟩, ⟨"content", "new text"⟩]⟩⟩
      ⟨[⟨7, "old", false, "b@x.io"⟩], 8⟩
      = CardVariant.editTask none 7 "new text" "b@x.io" ⟨[⟨7, "old", false, "b@x.io"⟩], 8⟩ ∧
    CardVariant.handleCardAction none
      ⟨⟨"", ⟨"Bob", "b@x.io"⟩⟩, some ⟨"editTask", [⟨"taskId", "7"⟩]⟩⟩
      ⟨[⟨7, "old", false, "b@x.io"⟩], 8⟩
      = CardVariant.showEditForm none 7 "b@x.io" ⟨[⟨7, "old", false, "b@x.io"⟩], 8⟩ := by
  constructor
  · exact (claim_c6 none _ ⟨"editTask", [⟨"taskId", "7"⟩, ⟨"content", "new text"⟩]⟩ _ 7
      rfl rfl (by decide)).1 (by decide)
  · exact (claim_c6 none _ ⟨"editTask", [⟨"taskId", "7"⟩]⟩ _ 7
      rfl rfl (by decide)).2.1 (by decide)

/-- Witness for C5: a `markDone` click whose `taskId` is not numeric. -/
theorem claim_c5_witness :
    CardVariant.handleCardAction none
      ⟨⟨"done 1", ⟨"Bob", "b@x.io"⟩⟩, some ⟨"markDone", [⟨"taskId", "abc"⟩]⟩⟩
      ⟨[⟨1, "milk", false, "b@x.io"⟩], 2⟩
      = .ok (⟨"❌ Invalid task ID", []⟩, ⟨[⟨1, "milk", false, "b@x.io"⟩], 2⟩) :=
  claim_c5 none _ ⟨"markDone", [⟨"taskId", "abc"⟩]⟩ _ rfl (Or.inl rfl) (by decide)

/-- C7: the outcome of `SetDone` and `Delete` is reported in exactly one of
three mutually exclusive ways: an injected storage failure is propagated as
a hard error (never swallowed) — also through `HandleChat`, which wraps and
returns it; zero affected rows yield the distinct not-found reply with the
store unchanged; a positive count yields the success reply.  The two user
replies differ and an `ok` reply is never an error. -/
theorem claim_c7 (e : String) (taskID : Int) (userID : String) (db : DB) :
    TextVariant.markTaskDone (some e) taskID userID db = .error e ∧
    TextVariant.deleteTask (some e) taskID userID db = .error e ∧
    CardVariant.markTaskDone (some e) taskID userID db = .error e ∧
    CardVariant.deleteTask (some e) taskID userID db = .error e ∧
    ChatGo.markTaskDone (some e) taskID userID db = .error e ∧
    ((execSetDone taskID userID db.tasks).2 = 0 →
      TextVariant.markTaskDone none taskID userID db
        = .ok (⟨notFoundMsg taskID, []⟩, db)) ∧
    (0 < (execSetDone taskID userID db.tasks).2 →
      TextVariant.markTaskDone none taskID userID db
        = .ok (⟨TextVariant.doneMsg taskID, []⟩,
            ⟨(execSetDone taskID userID db.tasks).1, db.nextId⟩)) ∧
    ((execDelete taskID userID db.tasks).2 = 0 →
      TextVariant.deleteTask none taskID userID db
        = .ok (⟨notFoundMsg taskID, []⟩, db)) ∧
    (0 < (execDelete taskID userID db.tasks).2 →
      TextVariant.deleteTask none taskID userID db
        = .ok (⟨TextVariant.deletedMsg taskID, []⟩,
            ⟨(execDelete taskID userID db.tasks).1, db.nextId⟩)) ∧
    TextVariant.doneMsg taskID ≠ notFoundMsg taskID ∧
    TextVariant.deletedMsg taskID ≠ notFoundMsg taskID ∧
    (∀ x : ChatResponse × DB,
      (Except.ok x : Except String (ChatResponse × DB)) ≠ .error e) ∧
    (∀ req : ChatRequest, matchAdd (goTrimSpace req.message.text) = none →
      goTrimSpace req.message.text ≠ "list" →
      (∃ ds, matchDone (goTrimSpace req.message.text) = some ds) →
      ChatGo.handleChat (some e) req db
        = .error ("failed to mark task as done: " ++ e)) := by
  have hdoneHead : (TextVariant.doneMsg taskID).data.head? = some '✅' := by
    unfold TextVariant.doneMsg
    exact data_head_append _ (data_head_append _ (by decide))
  have hdelHead : (TextVariant.deletedMsg taskID).data.head? = some '🗑' := by
    unfold TextVariant.deletedMsg
    exact data_head_append _ (data_head_append _ (by decide))
  have hnfHead : (notFoundMsg taskID).data.head? = some '❌' := by
    unfold notFoundMsg
    exact data_head_append _ (data_head_append _ (by decide))
  refine ⟨rfl, rfl, rfl, rfl, rfl, ?_, ?_, ?_, ?_, ?_, ?_, ?_, ?_⟩
  · intro h0
    have h0' : (db.tasks.filter (rowMatches taskID userID)).length = 0 := h0
    have hnm := rowMatches_false_of_count_zero h0'
    simp [TextVariant.markTaskDone, execSetDone_of_nomatch hnm]
  · intro hpos
    have hne0 : ¬((execSetDone taskID userID db.tasks).2 = 0) := by omega
    simp [TextVariant.markTaskDone, hne0]
  · intro h0
    have h0' : (db.tasks.filter (rowMatches taskID userID)).length = 0 := h0
    have hnm := rowMatches_false_of_count_zero h0'
    simp [TextVariant.deleteTask, execDelete_of_nomatch hnm]
  · intro hpos
    have hne0 : ¬((execDelete taskID userID db.tasks).2 = 0) := by omega
    simp [TextVariant.deleteTask, hne0]
  · exact string_ne_of_head_ne (by decide) hdoneHead hnfHead
  · exact string_ne_of_head_ne (by decide) hdelHead hnfHead
  · intro x
    simp
  · intro req hadd hlist hdone
    obtain ⟨ds, hds⟩ := hdone
    simp [ChatGo.handleChat, hadd, hlist, hds, ChatGo.markTaskDone]

/-- Witness for C7: failure propagation and both reply shapes at a concrete
store. -/
theorem claim_c7_witness :
    TextVariant.markTaskDone (some "boom") 1 "u" ⟨[⟨1, "t", false, "u"⟩], 2⟩
      = .error "boom" ∧
    TextVariant.markTaskDone none 1 "u" ⟨[⟨1, "t", false, "u"⟩], 2⟩
      = .ok (⟨TextVariant.doneMsg 1, []⟩, ⟨[⟨1, "t", true, "u"⟩], 2⟩) ∧
    TextVariant.markTaskDone none 5 "u" ⟨[⟨1, "t", false, "u"⟩], 2⟩
      = .ok (⟨notFoundMsg 5, []⟩, ⟨[⟨1, "t", false, "u"⟩], 2⟩) ∧
    ChatGo.handleChat (some "boom") ⟨⟨"done 1", ⟨"", "u"⟩⟩, none⟩
      ⟨[⟨1, "t", false, "u"⟩], 2⟩
      = .error "failed to mark task as done: boom" := by
  refine ⟨(claim_c7 "boom" 1 "u" _).1, ?_, ?_, ?_⟩
  · exact (claim_c7 "boom" 1 "u" ⟨[⟨1, "t", false, "u"⟩], 2⟩).2.2.2.2.2.2.1 (by decide)
  · exact (claim_c7 "boom" 5 "u" ⟨[⟨1, "t", false, "u"⟩], 2⟩).2.2.2.2.2.1 (by decide)
  · exact (claim_c7 "boom" 1 "u" ⟨[⟨1, "t", false, "u"⟩], 2⟩).2.2.2.2.2.2.2.2.2.2.2.2
      ⟨⟨"done 1", ⟨"", "u"⟩⟩, none⟩ (by decide) (by decide) ⟨"1", by decide⟩

/-- C10: `SetDone` is idempotent.  When every row matching the id and owner
is already done (and at least one exists), `markTaskDone` succeeds again —
it reports success, not not-found — and the store is left identical, because
the `UPDATE` matches the row regardless of its current `done` flag and
setting `done = true` on a done row changes nothing.  In the card variant
the success reply is the task list of the unchanged store. -/
theorem claim_c10 (taskID : Int) (userID : String) (db : DB)
    (hex : ∃ t ∈ db.tasks, rowMatches taskID userID t = true)
    (hdone : ∀ t ∈ db.tasks, rowMatches taskID userID t = true → t.done = true) :
    TextVariant.markTaskDone none taskID userID db
      = .ok (⟨TextVariant.doneMsg taskID, []⟩, db) ∧
    ChatGo.markTaskDone none taskID userID db = .ok (TextVariant.doneMsg taskID, db) ∧
    CardVariant.markTaskDone none taskID userID db
      = CardVariant.listTasks none userID db := by
  have hmap : (execSetDone taskID userID db.tasks).1 = db.tasks := by
    unfold execSetDone
    exact map_update_eq_self fun t ht hp => by
      have hd := hdone t ht hp
      cases t
      simp only [Task.mk.injEq] at hd ⊢
      simp [hd]
  have hpos : (execSetDone taskID userID db.tasks).2 ≠ 0 := by
    obtain ⟨t, ht, hm⟩ := hex
    have hmem : t ∈ db.tasks.filter (rowMatches taskID userID) :=
      List.mem_filter.mpr ⟨ht, hm⟩
    have hlen : 0 < (db.tasks.filter (rowMatches taskID userID)).length :=
      List.length_pos.mpr (List.ne_nil_of_mem hmem)
    show (db.tasks.filter (rowMatches taskID userID)).length ≠ 0
    omega
  refine ⟨?_, ?_, ?_⟩
  · simp [TextVariant.markTaskDone, hpos, hmap]
  · simp [ChatGo.markTaskDone, hpos, hmap]
  · simp [CardVariant.markTaskDone, hpos, hmap]

/-- Witness for C10: marking an already-done task done again. -/
theorem claim_c10_witness :
    TextVariant.markTaskDone none 1 "u" ⟨[⟨1, "t", true, "u"⟩], 2⟩
      = .ok (⟨TextVariant.doneMsg 1, []⟩, ⟨[⟨1, "t", true, "u"⟩], 2⟩) ∧
    CardVariant.markTaskDone none 1 "u" ⟨[⟨1, "t", true, "u"⟩], 2⟩
      = CardVariant.listTasks none "u" ⟨[⟨1, "t", true, "u"⟩], 2⟩ := by
  have h := claim_c10 1 "u" ⟨[⟨1, "t", true, "u"⟩], 2⟩
    ⟨⟨1, "t", true, "u"⟩, by decide, by decide⟩ (by decide)
  exact ⟨h.1, h.2.2⟩

/-- C9: in rich rendering mode every task of the owner is rendered as one
card; each card's button list is `createTaskButtons` of the task, which
contains a Mark Done button exactly when the task is not done and always
contains Edit and Delete buttons, every button carrying its action name and
a parameter map with the task's id under key `taskId`. -/
theorem claim_c9 (userID : String) (db : DB)
    (hne : queryUserTasks userID db.tasks ≠ []) :
    CardVariant.listTasks none userID db
      = .ok (⟨"", (queryUserTasks userID db.tasks).map CardVariant.taskCard⟩, db) ∧
    (∀ t : Task,
      ((∃ b ∈ CardVariant.createTaskButtons t.id t.done, ∃ tb : TextButton,
        b.textButton = some tb ∧ tb.text = "Mark as Done" ∧
        tb.onClick.action.actionMethodName = "markDone" ∧
        tb.onClick.action.parameters = [("taskId", toString t.id)]) ↔ t.done = false) ∧
      (∃ b ∈ CardVariant.createTaskButtons t.id t.done, ∃ tb : TextButton,
        b.textButton = some tb ∧ tb.text = "Edit" ∧
        tb.onClick.action.actionMethodName = "editTask" ∧
        tb.onClick.action.parameters = [("taskId", toString t.id)]) ∧
      (∃ b ∈ CardVariant.createTaskButtons t.id t.done, ∃ tb : TextButton,
        b.textButton = some tb ∧ tb.text = "Delete" ∧
        tb.onClick.action.actionMethodName = "deleteTask" ∧
        tb.onClick.action.parameters = [("taskId", toString t.id)]) ∧
      (∀ b ∈ CardVariant.createTaskButtons t.id t.done, ∃ tb : TextButton,
        b.textButton = some tb ∧
        tb.onClick.action.parameters = [("taskId", toString t.id)]) ∧
      (∃ sec : CardSection, (CardVariant.taskCard t).sections = [sec] ∧
        ∃ w ∈ sec.widgets,
          w.buttonList = some ⟨CardVariant.createTaskButtons t.id t.done⟩)) := by
  constructor
  · cases hq : queryUserTasks userID db.tasks with
    | nil => exact absurd hq hne
    | cons a l => simp [CardVariant.listTasks, hq]
  · intro t
    refine ⟨?_, ?_, ?_, ?_, ?_⟩
    · constructor
      · rintro ⟨b, hb, tb, htb, htext, -, -⟩
        cases hd : t.done
        · rfl
        · exfalso
          rw [hd] at hb
          simp [CardVariant.createTaskButtons] at hb
          rcases hb with rfl | rfl <;> (rw [Option.some.injEq] at htb) <;>
            rw [← htb] at htext <;> simp at htext
      · intro hd
        exact ⟨⟨some ⟨"Mark as Done", ⟨⟨"markDone", [("taskId", toString t.id)]⟩⟩⟩⟩,
          by simp [CardVariant.createTaskButtons, hd],
          ⟨"Mark as Done", ⟨⟨"markDone", [("taskId", toString t.id)]⟩⟩⟩,
          rfl, rfl, rfl, rfl⟩
    · exact ⟨⟨some ⟨"Edit", ⟨⟨"editTask", [("taskId", toString t.id)]⟩⟩⟩⟩,
        by cases hd : t.done <;> simp [CardVariant.createTaskButtons, hd],
        ⟨"Edit", ⟨⟨"editTask", [("taskId", toString t.id)]⟩⟩⟩, rfl, rfl, rfl, rfl⟩
    · exact ⟨⟨some ⟨"Delete", ⟨⟨"deleteTask", [("taskId", toString t.id)]⟩⟩⟩⟩,
        by cases hd : t.done <;> simp [CardVariant.createTaskButtons, hd],
        ⟨"Delete", ⟨⟨"deleteTask", [("taskId", toString t.id)]⟩⟩⟩, rfl, rfl, rfl, rfl⟩
    · intro b hb
      cases hd : t.done <;> rw [hd] at hb <;>
        simp [CardVariant.createTaskButtons] at hb
      · rcases hb with rfl | rfl | rfl <;> exact ⟨_, rfl, rfl⟩
      · rcases hb with rfl | rfl <;> exact ⟨_, rfl, rfl⟩
    · exact ⟨_, rfl, ⟨none, some ⟨CardVariant.createTaskButtons t.id t.done⟩,
        false, none⟩, by simp [CardVariant.taskCard], rfl⟩

/-- Witness for C9: the rendered list for one owner with one open task. -/
theorem claim_c9_witness :
    CardVariant.listTasks none "u" ⟨[⟨1, "milk", false, "u"⟩], 2⟩
      = .ok (⟨"", [CardVariant.taskCard ⟨1, "milk", false, "u"⟩]⟩,
          ⟨[⟨1, "milk", false, "u"⟩], 2⟩) :=
  (claim_c9 "u" ⟨[⟨1, "milk", false, "u"⟩], 2⟩ (by decide)).1

/-- C8 counterexample: the captured digit sequence of
`done 9999999999999999999` (a 19-digit number above `2^63 - 1`) makes the
integer conversion fail (`strconv.ErrRange`), and the value used after the
discarded error is the clamp `2^63 - 1`, not the number that was written —
so the conversion of a pattern-constrained digit sequence can fail. -/
theorem claim_c8_counterexample :
    matchDone "done 9999999999999999999" = some "9999999999999999999" ∧
    (goAtoi "9999999999999999999").2 = true ∧
    (goAtoi "9999999999999999999").1 ≠ (9999999999999999999 : Int) := by decide

/-- C8 (amended): for every message matching `done <digits>` or
`edit <digits> ...`, if the captured digit sequence's value fits in a 64-bit
int (at most `2^63 - 1`) then the integer conversion succeeds and yields
exactly that value, so discarding the conversion error cannot produce a
wrong task id in that range. -/
theorem claim_c8 (text ds : String)
    (hm : matchDone text = some ds ∨ ∃ cap, matchEdit text = some (ds, cap))
    (hbound : digitsToNat ds ≤ 2 ^ 63 - 1) :
    goAtoi ds = ((digitsToNat ds : Int), false) := by
  rcases hm with h | ⟨cap, h⟩
  · obtain ⟨hne, hdig⟩ := matchDone_digits h
    exact goAtoi_digits hne hdig hbound
  · obtain ⟨hne, hdig⟩ := matchEdit_digits h
    exact goAtoi_digits hne hdig hbound

/-- Witness for C8 at `done 12`. -/
theorem claim_c8_witness :
    matchDone "done 12" = some "12" ∧ digitsToNat "12" ≤ 2 ^ 63 - 1 ∧
    goAtoi "12" = ((digitsToNat "12" : Int), false) :=
  ⟨by decide, by decide, claim_c8 "done 12" "12" (Or.inl (by decide)) (by decide)⟩

/-- C3 counterexample: the text `test` matches none of the four patterns
`add <content>`, `list`, `done <digits>`, `edit <digits> <content>`, yet the
parser does not classify it as Help — the switch has a fifth pattern
`^test$` with its own static reply before the fallback. -/
theorem claim_c3_counterexample :
    matchAdd "test" = none ∧ "test" ≠ "list" ∧ matchDone "test" = none ∧
    matchEdit "test" = none ∧ TextVariant.parseCommand "test" ≠ Intent.help ∧
    TextVariant.parseCommand "test" = Intent.test := by decide

/-- C3 (amended): the parser is a total first-match-wins classification over
the ordered patterns `add <content>`, `list`, `done <digits>`,
`edit <digits> <content>`, `test` (a static test reply), with everything
else yielding Help and its static usage message; `list` never matches the
`add` pattern and `done 12` extracts id 12 exactly. -/
theorem claim_c3 :
    (matchAdd "list" = none) ∧
    (TextVariant.parseCommand "list" = Intent.list) ∧
    (TextVariant.parseCommand "done 12" = Intent.done 12) ∧
    (∀ text cap, matchAdd text = some cap →
      TextVariant.parseCommand text = Intent.add (goTrimSpace cap)) ∧
    (∀ text, matchAdd text = none → text ≠ "list" → ∀ ds, matchDone text = some ds →
      TextVariant.parseCommand text = Intent.done (goAtoi ds).1) ∧
    (∀ text, matchAdd text = none → text ≠ "list" → matchDone text = none →
      ∀ ds cap, matchEdit text = some (ds, cap) →
      TextVariant.parseCommand text = Intent.edit (goAtoi ds).1 (goTrimSpace cap)) ∧
    (∀ text, matchAdd text = none → text ≠ "list" → matchDone text = none →
      matchEdit text = none → text ≠ "test" →
      TextVariant.parseCommand text = Intent.help) ∧
    (∀ (dbErr : Option String) (db : DB) (senderName senderEmail msgText : String),
      TextVariant.parseCommand (goTrimSpace msgText) = Intent.help →
      TextVariant.handleChat dbErr msgText senderName senderEmail db
        = .ok (⟨TextVariant.usageText, []⟩, db)) ∧
    (TextVariant.parseCommand "test" = Intent.test) ∧
    (∀ (dbErr : Option String) (db : DB) (senderName senderEmail msgText : String),
      TextVariant.parseCommand (goTrimSpace msgText) = Intent.test →
      TextVariant.handleChat dbErr msgText senderName senderEmail db
        = .ok (⟨TextVariant.testText, []⟩, db)) := by
  refine ⟨by decide, by decide, by decide, ?_, ?_, ?_, ?_, ?_, by decide, ?_⟩
  · intro text cap h
    simp [TextVariant.parseCommand, h]
  · intro text h1 h2 ds h3
    simp [TextVariant.parseCommand, h1, h2, h3]
  · intro text h1 h2 h3 ds cap h4
    simp [TextVariant.parseCommand, h1, h2, h3, h4]
  · intro text h1 h2 h3 h4 h5
    simp [TextVariant.parseCommand, h1, h2, h3, h4, h5]
  · intro dbErr db senderName senderEmail msgText hp
    simp [TextVariant.handleChat, hp]
  · intro dbErr db senderName senderEmail msgText hp
    simp [TextVariant.handleChat, hp]

/-- Witness for C3: the Help fallback at a non-command text. -/
theorem claim_c3_witness :
    TextVariant.parseCommand "hello there" = Intent.help ∧
    TextVariant.handleChat none "hello there" "Bob" "b@x.io" ⟨[], 1⟩
      = .ok (⟨TextVariant.usageText, []⟩, ⟨[], 1⟩) :=
  ⟨claim_c3.2.2.2.2.2.2.1 "hello there" (by decide) (by decide) (by decide)
      (by decide) (by decide),
   claim_c3.2.2.2.2.2.2.2.1 none ⟨[], 1⟩ "Bob" "b@x.io" "hello there" (by decide)⟩

end GTD
